import Mathlib

/-!
Verification of the netcheck diagnostic core (src-tauri/src): a shallow
embedding of the data model (types.rs), the pure analysis engine
(diagnostic.rs analyze_results), the stability aggregation
(diagnostic.rs check_stability), the traceroute output parsing
(diagnostic.rs check_routing), and the initial progress emissions of the
orchestration entry point (lib.rs run_diagnostic).

Millisecond / percentage quantities are Rust f64 in the source; they are
modelled as exact rationals here.  HTTP codes are u16, modelled as Nat.
The hop-count field total_hops is u32; the cast hops.len() as u32 is
modelled by an explicit reduction modulo 2 ^ 32.
-/

namespace NetCheck

/-- Status of a diagnostic step (types.rs DiagnosticStatus). -/
inductive DiagnosticStatus where
  | Pending
  | Running
  | Success
  | Warning
  | Error
deriving DecidableEq

/-- DNS resolution result (types.rs DnsResult). -/
structure DnsResult where
  domain : String
  resolved_ips : List String
  lookup_time_ms : ℚ
  ttl : Option Nat
  nameservers : Option (List String)
  using_cdn : Option String
deriving DecidableEq

/-- TCP connection timing result (types.rs TcpResult). -/
structure TcpResult where
  dns_time_ms : ℚ
  connect_time_ms : ℚ
  ssl_time_ms : ℚ
  ttfb_ms : ℚ
  total_time_ms : ℚ
  http_code : Nat
  download_speed_kbps : ℚ
deriving DecidableEq

/-- A single hop in the routing path (types.rs RouteHop). -/
structure RouteHop where
  hop_number : Nat
  ip_address : String
  hostname : Option String
  rtt_ms : ℚ
  packet_loss_percent : ℚ
deriving DecidableEq

/-- Routing / traceroute result (types.rs RoutingResult).  total_hops is a
u32 in the source. -/
structure RoutingResult where
  target_ip : String
  hops : List RouteHop
  total_hops : Nat
  total_time_ms : ℚ
deriving DecidableEq

/-- Connection stability test result (types.rs StabilityResult). -/
structure StabilityResult where
  total_tests : Nat
  successful_tests : Nat
  success_rate : ℚ
  min_time_ms : ℚ
  avg_time_ms : ℚ
  max_time_ms : ℚ
  jitter_ms : ℚ
deriving DecidableEq

/-- Issue severity level (types.rs IssueSeverity). -/
inductive IssueSeverity where
  | Info
  | Warning
  | Error
deriving DecidableEq

/-- Issue category (types.rs IssueCategory). -/
inductive IssueCategory where
  | Dns
  | Tcp
  | Ssl
  | Routing
  | Stability
  | Http
deriving DecidableEq

/-- A detected issue (types.rs DiagnosticIssue). -/
structure DiagnosticIssue where
  category : IssueCategory
  severity : IssueSeverity
  title : String
  description : String
  possible_causes : List String
  solutions : List String
deriving DecidableEq

/-- Overall diagnostic status (types.rs OverallStatus). -/
inductive OverallStatus where
  | Excellent
  | Good
  | Acceptable
  | Poor
  | Failed
deriving DecidableEq

/-- Progress event sent to the frontend (types.rs ProgressEvent); the data
field, always None at the emission sites modelled here, is omitted. -/
structure ProgressEvent where
  step : String
  status : DiagnosticStatus
  message : String
deriving DecidableEq

/-- Renders a rational rounded to the nearest integer, modelling the Rust
formatter width .0 used in issue descriptions (no analysed property
depends on the rendered text; ties round up here, to even in Rust). -/
def fmtMs (q : ℚ) : String := toString ((2 * q.num + (q.den : ℤ)) / (2 * (q.den : ℤ)))

/-- Issue pushed when DNS resolution returned no address (diagnostic.rs:282-297). -/
def dnsResolutionFailedIssue (dns : DnsResult) : DiagnosticIssue :=
  { category := IssueCategory.Dns
    severity := IssueSeverity.Error
    title := "Không thể phân giải DNS"
    description := "Không tìm thấy địa chỉ IP cho domain " ++ dns.domain
    possible_causes :=
      [ "Domain không tồn tại hoặc chưa được đăng ký"
      , "DNS server không phản hồi"
      , "DNS bị chặn bởi tường lửa" ]
    solutions :=
      [ "Kiểm tra lại tên domain"
      , "Thử đổi DNS sang 8.8.8.8 hoặc 1.1.1.1"
      , "Kiểm tra kết nối internet" ] }

/-- Issue pushed when DNS lookup took more than 200ms (diagnostic.rs:300-314). -/
def dnsSlowIssue (dns : DnsResult) : DiagnosticIssue :=
  { category := IssueCategory.Dns
    severity := IssueSeverity.Warning
    title := "DNS chậm"
    description := "Thời gian DNS lookup: " ++ fmtMs dns.lookup_time_ms ++ "ms (nên < 200ms)"
    possible_causes :=
      [ "DNS server xa về mặt địa lý"
      , "DNS server quá tải"
      , "Không có DNS cache" ]
    solutions :=
      [ "Đổi sang DNS nhanh hơn như Cloudflare (1.1.1.1) hoặc Google (8.8.8.8)"
      , "Thêm " ++ dns.domain ++ " vào file /etc/hosts với IP "
          ++ (dns.resolved_ips.headI) ] }

/-- Issue pushed when the transport probe saw no HTTP response at all
(diagnostic.rs:329-345). -/
def tcpConnectFailedIssue : DiagnosticIssue :=
  { category := IssueCategory.Tcp
    severity := IssueSeverity.Error
    title := "Không thể kết nối TCP"
    description := "Kết nối TCP thất bại hoàn toàn"
    possible_causes :=
      [ "Website không hoạt động"
      , "Port 443 bị chặn"
      , "Firewall chặn kết nối"
      , "Routing problem" ]
    solutions :=
      [ "Kiểm tra website có hoạt động không bằng cách mở trên trình duyệt"
      , "Thử sử dụng VPN"
      , "Liên hệ ISP nếu vấn đề kéo dài" ] }

/-- Issue pushed when the DNS-exclusive TCP connect time exceeded 500ms
(diagnostic.rs:351-365). -/
def tcpConnectSlowIssue (connect_only : ℚ) : DiagnosticIssue :=
  { category := IssueCategory.Tcp
    severity := IssueSeverity.Warning
    title := "TCP Connect chậm"
    description := "Thời gian TCP connect: " ++ fmtMs connect_only ++ "ms (nên < 500ms)"
    possible_causes :=
      [ "Server ở xa (khác châu lục)"
      , "Routing kém từ ISP"
      , "Nghẽn mạng" ]
    solutions :=
      [ "Vấn đề này thường do khoảng cách địa lý, khó cải thiện"
      , "Thử sử dụng VPN với server gần target hơn" ] }

/-- Issue pushed when the connect-exclusive SSL handshake time exceeded
500ms (diagnostic.rs:372-386). -/
def sslSlowIssue (ssl_only : ℚ) : DiagnosticIssue :=
  { category := IssueCategory.Ssl
    severity := IssueSeverity.Warning
    title := "SSL Handshake chậm"
    description := "Thời gian SSL handshake: " ++ fmtMs ssl_only ++ "ms (nên < 500ms)"
    possible_causes :=
      [ "SSL certificate chain dài"
      , "OCSP stapling không được bật"
      , "Latency cao đến server" ]
    solutions :=
      [ "Đây thường là vấn đề từ phía server"
      , "Kiểm tra xem có đang bị man-in-the-middle không" ] }

/-- Issue pushed when the total transport time exceeded 3000ms
(diagnostic.rs:392-406). -/
def totalTimeSlowIssue (total_time_ms : ℚ) : DiagnosticIssue :=
  { category := IssueCategory.Http
    severity := IssueSeverity.Warning
    title := "Tổng thời gian tải chậm"
    description := "Tổng thời gian: " ++ fmtMs total_time_ms ++ "ms (nên < 3000ms)"
    possible_causes :=
      [ "Server phản hồi chậm"
      , "Kết nối mạng không ổn định"
      , "Nhiều redirect" ]
    solutions :=
      [ "Kiểm tra tốc độ mạng của bạn"
      , "Thử vào lúc khác trong ngày" ] }

/-- Issue pushed for an HTTP status code in 400-499 (diagnostic.rs:414-427). -/
def httpClientErrorIssue (http_code : Nat) : DiagnosticIssue :=
  { category := IssueCategory.Http
    severity := IssueSeverity.Warning
    title := "HTTP Error " ++ toString http_code
    description := "Server trả về lỗi client-side"
    possible_causes :=
      [ "Yêu cầu không hợp lệ"
      , "Cần đăng nhập"
      , "Trang không tồn tại" ]
    solutions :=
      [ "Kiểm tra URL có đúng không" ] }

/-- Issue pushed for an HTTP status code of 500 or above (diagnostic.rs:429-443). -/
def httpServerErrorIssue (http_code : Nat) : DiagnosticIssue :=
  { category := IssueCategory.Http
    severity := IssueSeverity.Error
    title := "HTTP Error " ++ toString http_code
    description := "Server gặp lỗi nội bộ"
    possible_causes :=
      [ "Server đang bảo trì"
      , "Server quá tải"
      , "Lỗi ứng dụng phía server" ]
    solutions :=
      [ "Đợi và thử lại sau"
      , "Kiểm tra trang status của dịch vụ" ] }

/-- Issue pushed when more than 30 percent of traceroute hops gave no
response (diagnostic.rs:458-472). -/
def failedHopsIssue (failed_percent : ℚ) : DiagnosticIssue :=
  { category := IssueCategory.Routing
    severity := IssueSeverity.Warning
    title := "Nhiều hop không phản hồi"
    description := fmtMs failed_percent ++ "% các hop trong traceroute không phản hồi"
    possible_causes :=
      [ "Các router chặn ICMP (bình thường)"
      , "Firewall chặn traceroute"
      , "Vấn đề routing" ]
    solutions :=
      [ "Điều này có thể bình thường nếu website vẫn hoạt động"
      , "Thử tcptraceroute nếu cần chi tiết hơn" ] }

/-- Issue pushed when the route had more than 20 hops (diagnostic.rs:476-488). -/
def manyHopsIssue (total_hops : Nat) : DiagnosticIssue :=
  { category := IssueCategory.Routing
    severity := IssueSeverity.Info
    title := "Nhiều hop"
    description := "Có " ++ toString total_hops ++ " hop đến đích (nhiều hơn bình thường)"
    possible_causes :=
      [ "Server ở xa"
      , "Routing không tối ưu" ]
    solutions :=
      [ "Sử dụng VPN có thể giúp tối ưu routing" ] }

/-- Issue pushed when fewer than 80 percent of stability samples succeeded
(diagnostic.rs:497-513). -/
def unstableIssue (success_rate : ℚ) : DiagnosticIssue :=
  { category := IssueCategory.Stability
    severity := IssueSeverity.Error
    title := "Kết nối không ổn định"
    description := "Chỉ " ++ fmtMs success_rate ++ "% request thành công"
    possible_causes :=
      [ "Mạng không ổn định"
      , "Tín hiệu WiFi yếu"
      , "ISP có vấn đề"
      , "Server bị quá tải" ]
    solutions :=
      [ "Di chuyển gần router WiFi hơn hoặc dùng cáp LAN"
      , "Khởi động lại modem/router"
      , "Liên hệ ISP nếu vấn đề kéo dài" ] }

/-- Issue pushed when the stability success rate was in 80-99.9 percent
(diagnostic.rs:516-529). -/
def packetLossIssue (success_rate : ℚ) : DiagnosticIssue :=
  { category := IssueCategory.Stability
    severity := IssueSeverity.Warning
    title := "Có packet loss"
    description := "Tỉ lệ thành công: " ++ fmtMs success_rate ++ "%"
    possible_causes :=
      [ "Nghẽn mạng tạm thời"
      , "Tín hiệu WiFi không ổn định" ]
    solutions :=
      [ "Kiểm tra tín hiệu WiFi"
      , "Thử lại sau vài phút" ] }

/-- Issue pushed when the stability jitter exceeded 100ms
(diagnostic.rs:536-549). -/
def highJitterIssue (jitter_ms : ℚ) : DiagnosticIssue :=
  { category := IssueCategory.Stability
    severity := IssueSeverity.Warning
    title := "Jitter cao"
    description := "Độ biến thiên thời gian phản hồi: " ++ fmtMs jitter_ms ++ "ms"
    possible_causes :=
      [ "Mạng không ổn định"
      , "Có thiết bị khác đang dùng băng thông" ]
    solutions :=
      [ "Giảm số thiết bị sử dụng mạng cùng lúc"
      , "Sử dụng cáp LAN thay vì WiFi" ] }

/-- Recommendation pushed when a CDN label was detected (diagnostic.rs:319-323). -/
def cdnRecommendation (cdn : String) : String :=
  "Website sử dụng CDN " ++ cdn ++ " - đây là dấu hiệu tốt cho hiệu năng"

/-- Recommendation pushed when no issue was produced (diagnostic.rs:556). -/
def noIssuesRecommendation : String :=
  "Kết nối đến website hoạt động tốt, không phát hiện vấn đề nào."

/-- Recommendation pushed when at least one Dns issue was produced
(diagnostic.rs:563). -/
def dnsRecommendation : String :=
  "Cân nhắc đổi DNS server sang 1.1.1.1 (Cloudflare) hoặc 8.8.8.8 (Google)."

/-- Recommendation pushed when at least one Tcp or Stability issue was
produced (diagnostic.rs:567). -/
def wifiRecommendation : String :=
  "Kiểm tra tín hiệu WiFi và cân nhắc sử dụng cáp LAN."

/-- Escalation recommendation pushed when the final score is below 50
(diagnostic.rs:571). -/
def escalationRecommendation : String :=
  "Kết nối có nhiều vấn đề - cân nhắc sử dụng VPN hoặc liên hệ ISP."

/-- DNS analysis rules (diagnostic.rs:280-324): the issues pushed, the
score delta, and the CDN recommendation pushed while analysing the DNS
outcome. -/
def analyzeDns (dns : DnsResult) : List DiagnosticIssue × Int × List String :=
  let recs : List String :=
    match dns.using_cdn with
    | some cdn => [cdnRecommendation cdn]
    | none => []
  if dns.resolved_ips = [] then ([dnsResolutionFailedIssue dns], -50, recs)
  else if dns.lookup_time_ms > 200 then ([dnsSlowIssue dns], -10, recs)
  else ([], 0, recs)

/-- Transport sub-check on the DNS-exclusive connect time (diagnostic.rs:349-367). -/
def connectCheck (tcp : TcpResult) : List DiagnosticIssue × Int :=
  let connect_only := tcp.connect_time_ms - tcp.dns_time_ms
  if connect_only > 500 then ([tcpConnectSlowIssue connect_only], -15) else ([], 0)

/-- Transport sub-check on the connect-exclusive SSL time (diagnostic.rs:370-388). -/
def sslCheck (tcp : TcpResult) : List DiagnosticIssue × Int :=
  let ssl_only := tcp.ssl_time_ms - tcp.connect_time_ms
  if ssl_only > 500 then ([sslSlowIssue ssl_only], -10) else ([], 0)

/-- Transport sub-check on the total time (diagnostic.rs:391-410): above
3000ms an issue and -15; above 1000ms a bare -5 with no issue. -/
def totalTimeCheck (tcp : TcpResult) : List DiagnosticIssue × Int :=
  if tcp.total_time_ms > 3000 then ([totalTimeSlowIssue tcp.total_time_ms], -15)
  else if tcp.total_time_ms > 1000 then ([], -5)
  else ([], 0)

/-- Transport sub-check on the HTTP status code (diagnostic.rs:413-445). -/
def httpCodeCheck (tcp : TcpResult) : List DiagnosticIssue × Int :=
  if 400 ≤ tcp.http_code ∧ tcp.http_code < 500 then ([httpClientErrorIssue tcp.http_code], 0)
  else if 500 ≤ tcp.http_code then ([httpServerErrorIssue tcp.http_code], -20)
  else ([], 0)

/-- Transport analysis rules (diagnostic.rs:327-447): a zero HTTP code
short-circuits all sub-checks with a single Error issue and -50. -/
def analyzeTcp (tcp : TcpResult) : List DiagnosticIssue × Int :=
  if tcp.http_code = 0 then ([tcpConnectFailedIssue], -50)
  else
    ((connectCheck tcp).1 ++ (sslCheck tcp).1 ++ (totalTimeCheck tcp).1 ++ (httpCodeCheck tcp).1,
     (connectCheck tcp).2 + (sslCheck tcp).2 + (totalTimeCheck tcp).2 + (httpCodeCheck tcp).2)

/-- Routing analysis rules (diagnostic.rs:450-491). -/
def analyzeRouting (routing : RoutingResult) : List DiagnosticIssue × Int :=
  let failed_hops := (routing.hops.filter (fun h => h.ip_address = "*")).length
  let failed_percent : ℚ := ((failed_hops : ℚ) / ((max routing.hops.length 1 : ℕ) : ℚ)) * 100
  let p1 : List DiagnosticIssue :=
    if failed_percent > 30 then [failedHopsIssue failed_percent] else []
  let p2 : List DiagnosticIssue × Int :=
    if routing.total_hops > 20 then ([manyHopsIssue routing.total_hops], -5) else ([], 0)
  (p1 ++ p2.1, p2.2)

/-- Stability analysis rules (diagnostic.rs:494-552). -/
def analyzeStability (stability : StabilityResult) : List DiagnosticIssue × Int :=
  let p1 : List DiagnosticIssue × Int :=
    if stability.success_rate < 100 then
      if stability.success_rate < 80 then ([unstableIssue stability.success_rate], -30)
      else ([packetLossIssue stability.success_rate], -10)
    else ([], 0)
  let p2 : List DiagnosticIssue × Int :=
    if stability.jitter_ms > 100 then ([highJitterIssue stability.jitter_ms], -5) else ([], 0)
  (p1.1 ++ p2.1, p1.2 + p2.2)

/-- Issues contributed by an optional DNS outcome (absent outcomes are
skipped, diagnostic.rs:280). -/
def dnsIssuesOf : Option DnsResult → List DiagnosticIssue
  | some dns => (analyzeDns dns).1
  | none => []

/-- Score delta contributed by an optional DNS outcome. -/
def dnsDeltaOf : Option DnsResult → Int
  | some dns => (analyzeDns dns).2.1
  | none => 0

/-- CDN recommendations contributed by an optional DNS outcome. -/
def dnsRecsOf : Option DnsResult → List String
  | some dns => (analyzeDns dns).2.2
  | none => []

/-- Issues contributed by an optional transport outcome (diagnostic.rs:327). -/
def tcpIssuesOf : Option TcpResult → List DiagnosticIssue
  | some tcp => (analyzeTcp tcp).1
  | none => []

/-- Score delta contributed by an optional transport outcome. -/
def tcpDeltaOf : Option TcpResult → Int
  | some tcp => (analyzeTcp tcp).2
  | none => 0

/-- Issues contributed by an optional routing outcome (diagnostic.rs:450). -/
def routingIssuesOf : Option RoutingResult → List DiagnosticIssue
  | some routing => (analyzeRouting routing).1
  | none => []

/-- Score delta contributed by an optional routing outcome. -/
def routingDeltaOf : Option RoutingResult → Int
  | some routing => (analyzeRouting routing).2
  | none => 0

/-- Issues contributed by an optional stability outcome (diagnostic.rs:494). -/
def stabilityIssuesOf : Option StabilityResult → List DiagnosticIssue
  | some stability => (analyzeStability stability).1
  | none => []

/-- Score delta contributed by an optional stability outcome. -/
def stabilityDeltaOf : Option StabilityResult → Int
  | some stability => (analyzeStability stability).2
  | none => 0

/-- The issue list accumulated by analyze_results, in push order
(dns, tcp, routing, stability). -/
def analyzeIssues (dns : Option DnsResult) (tcp : Option TcpResult)
    (routing : Option RoutingResult) (stability : Option StabilityResult) :
    List DiagnosticIssue :=
  dnsIssuesOf dns ++ tcpIssuesOf tcp ++ routingIssuesOf routing ++ stabilityIssuesOf stability

/-- The final score accumulated by analyze_results: 100 plus every
section's delta (the source subtracts as it pushes issues). -/
def analyzeScore (dns : Option DnsResult) (tcp : Option TcpResult)
    (routing : Option RoutingResult) (stability : Option StabilityResult) : Int :=
  100 + dnsDeltaOf dns + tcpDeltaOf tcp + routingDeltaOf routing + stabilityDeltaOf stability

/-- The recommendation list of analyze_results: the CDN note pushed during
DNS analysis, then the summary block (diagnostic.rs:554-573). -/
def analyzeRecommendations (dns : Option DnsResult) (tcp : Option TcpResult)
    (routing : Option RoutingResult) (stability : Option StabilityResult) :
    List String :=
  let issues := analyzeIssues dns tcp routing stability
  let score := analyzeScore dns tcp routing stability
  let summary : List String :=
    if issues = [] then [noIssuesRecommendation]
    else
      let dns_issues := (issues.filter (fun i => i.category = IssueCategory.Dns)).length
      let tcp_issues := (issues.filter (fun i => i.category = IssueCategory.Tcp)).length
      let stability_issues :=
        (issues.filter (fun i => i.category = IssueCategory.Stability)).length
      (if dns_issues > 0 then [dnsRecommendation] else []) ++
      (if tcp_issues > 0 ∨ stability_issues > 0 then [wifiRecommendation] else []) ++
      (if score < 50 then [escalationRecommendation] else [])
  dnsRecsOf dns ++ summary

/-- Score to status mapping (diagnostic.rs:576-586). -/
def statusOf (score : Int) : OverallStatus :=
  if 90 ≤ score then OverallStatus.Excellent
  else if 75 ≤ score then OverallStatus.Good
  else if 50 ≤ score then OverallStatus.Acceptable
  else if 25 ≤ score then OverallStatus.Poor
  else OverallStatus.Failed

/-- analyze_results (diagnostic.rs:269-589): issues, recommendations and
overall status for one frozen snapshot. -/
def analyze_results (dns : Option DnsResult) (tcp : Option TcpResult)
    (routing : Option RoutingResult) (stability : Option StabilityResult) :
    List DiagnosticIssue × List String × OverallStatus :=
  (analyzeIssues dns tcp routing stability,
   analyzeRecommendations dns tcp routing stability,
   statusOf (analyzeScore dns tcp routing stability))

/-- Models Rust str::starts_with as used on the curl status-code output
(diagnostic.rs:228). -/
def strStartsWith (s p : String) : Bool := p.data.isPrefixOf s.data

/-- One stability sample as observed by the loop in check_stability
(diagnostic.rs:209-238): the status-code text printed by curl together
with the measured elapsed time, or none when the curl invocation itself
failed (the Err arm, which records nothing). -/
structure SampleOutcome where
  code : String
  elapsed_ms : ℚ
deriving DecidableEq

/-- The elapsed times of the successful samples, in order: a sample counts
as successful exactly when its code text starts with 2 or 3
(diagnostic.rs:223-234). -/
def successfulTimes (samples : List (Option SampleOutcome)) : List ℚ :=
  samples.filterMap fun s =>
    match s with
    | some o => if strStartsWith o.code ("2") || strStartsWith o.code ("3")
                then some o.elapsed_ms else none
    | none => none

/-- The aggregation core of check_stability (diagnostic.rs:204-266): folds
the per-sample observations into a StabilityResult.  The source guards the
min/avg/max/jitter computation on the times vector being non-empty and
yields 0.0 for all four otherwise; on a non-empty vector it folds min and
max, averages, and takes jitter as the mean absolute deviation. -/
def check_stability (num_tests : Nat) (samples : List (Option SampleOutcome)) :
    StabilityResult :=
  let times := successfulTimes samples
  let successful := times.length
  let success_rate : ℚ := ((successful : ℚ) / (num_tests : ℚ)) * 100
  match times with
  | [] =>
    { total_tests := num_tests
      successful_tests := successful
      success_rate := success_rate
      min_time_ms := 0
      avg_time_ms := 0
      max_time_ms := 0
      jitter_ms := 0 }
  | t :: ts =>
    let avg := (t :: ts).sum / (((t :: ts).length : ℕ) : ℚ)
    { total_tests := num_tests
      successful_tests := successful
      success_rate := success_rate
      min_time_ms := ts.foldl min t
      avg_time_ms := avg
      max_time_ms := ts.foldl max t
      jitter_ms := ((t :: ts).map (fun x => |x - avg|)).sum / (((t :: ts).length : ℕ) : ℚ) }

/-- Digit run to a natural number, for the numeric captures of the
traceroute hop pattern. -/
def natOfDigits (ds : List Char) : Nat :=
  ds.foldl (fun acc c => acc * 10 + (c.toNat - 48)) 0

/-- The round-trip capture as a rational: integer digits and fractional
digits of the matched decimal literal. -/
def ratOfRtt (intPart fracPart : List Char) : ℚ :=
  (natOfDigits intPart : ℚ) + (natOfDigits fracPart : ℚ) / ((10 : ℚ) ^ fracPart.length)

/-- One digit group of the IPv4 alternative followed by a literal dot. -/
def digitsThenDot (cs : List Char) : Option (List Char × List Char) :=
  let g := cs.takeWhile Char.isDigit
  let r := cs.dropWhile Char.isDigit
  if g = [] then none
  else
    match r with
    | '.' :: r2 => some (g, r2)
    | _ => none

/-- The IPv4 alternative of the hop pattern (four digit groups separated
by dots), returning the matched text and the remainder. -/
def parseIp (cs : List Char) : Option (String × List Char) :=
  match digitsThenDot cs with
  | none => none
  | some (g1, r1) =>
    match digitsThenDot r1 with
    | none => none
    | some (g2, r2) =>
      match digitsThenDot r2 with
      | none => none
      | some (g3, r3) =>
        let g4 := r3.takeWhile Char.isDigit
        let r4 := r3.dropWhile Char.isDigit
        if g4 = [] then none
        else some (String.mk (g1 ++ ['.'] ++ g2 ++ ['.'] ++ g3 ++ ['.'] ++ g4), r4)

/-- The optional round-trip suffix of the hop pattern: a decimal literal,
optional whitespace, then the literal ms; yields 0 when the optional group
does not match, mirroring unwrap_or of the source (diagnostic.rs:177-179). -/
def parseRtt (cs : List Char) : ℚ :=
  let d1 := cs.takeWhile Char.isDigit
  let r1 := cs.dropWhile Char.isDigit
  if d1 = [] then 0
  else
    match r1 with
    | '.' :: r2 =>
      let d2 := r2.takeWhile Char.isDigit
      let r3 := (r2.dropWhile Char.isDigit).dropWhile Char.isWhitespace
      match r3 with
      | 'm' :: 's' :: _ => ratOfRtt d1 d2
      | _ => 0
    | _ =>
      match r1.dropWhile Char.isWhitespace with
      | 'm' :: 's' :: _ => ratOfRtt d1 []
      | _ => 0

/-- The per-line hop parse of check_routing (diagnostic.rs:162-191): the
anchored pattern of optional leading whitespace, a hop index, whitespace,
an IPv4 address or a star, and mandatory trailing whitespace with an
optional round-trip suffix.  The hop index is parsed as u32 and falls back
to 0 when it does not fit (unwrap_or of the source); a star hop records
100 percent loss. -/
def parseHopLine (line : String) : Option RouteHop :=
  let cs := line.data.dropWhile Char.isWhitespace
  let ds := cs.takeWhile Char.isDigit
  let r1 := cs.dropWhile Char.isDigit
  if ds = [] then none
  else if r1.takeWhile Char.isWhitespace = [] then none
  else
    let r2 := r1.dropWhile Char.isWhitespace
    let addr : Option (String × List Char) :=
      match parseIp r2 with
      | some (ip, rest) => some (ip, rest)
      | none =>
        match r2 with
        | '*' :: rest => some ("*", rest)
        | _ => none
    match addr with
    | none => none
    | some (ip, rest) =>
      if rest.takeWhile Char.isWhitespace = [] then none
      else
        let n := natOfDigits ds
        some { hop_number := if n < 2 ^ 32 then n else 0
               ip_address := ip
               hostname := none
               rtt_ms := parseRtt (rest.dropWhile Char.isWhitespace)
               packet_loss_percent := if ip = "*" then 100 else 0 }

/-- The hop list parsed from the traceroute stdout, given as its list of
lines: the header line is skipped and each remaining line contributes at
most one hop (diagnostic.rs:165-191). -/
def parseHops (stdout_lines : List String) : List RouteHop :=
  (stdout_lines.drop 1).filterMap parseHopLine

/-- The pure core of check_routing (diagnostic.rs:149-201): the parsed
hops and the RoutingResult built from them; total_hops is the hop count
cast to u32 (hops.len() as u32), hence reduced modulo 2 ^ 32.  The
measured wall time is a parameter. -/
def check_routing (target_ip : String) (total_time_ms : ℚ)
    (stdout_lines : List String) : RoutingResult :=
  let hops := parseHops stdout_lines
  { target_ip := target_ip
    hops := hops
    total_hops := hops.length % 2 ^ 32
    total_time_ms := total_time_ms }

/-- The six progress events run_diagnostic emits before Phase 1 starts
(lib.rs:37-43), in emission order. -/
def initialEvents : List ProgressEvent :=
  [ { step := "dns", status := DiagnosticStatus.Running, message := "Đang phân giải DNS..." }
  , { step := "tcp", status := DiagnosticStatus.Pending, message := "Chờ DNS..." }
  , { step := "ssl", status := DiagnosticStatus.Pending, message := "Chờ TCP..." }
  , { step := "http", status := DiagnosticStatus.Pending, message := "Chờ SSL..." }
  , { step := "routing", status := DiagnosticStatus.Pending, message := "Chờ DNS..." }
  , { step := "stability", status := DiagnosticStatus.Pending, message := "Chờ TCP..." } ]

/-- A resolution outcome with an empty address list, exercising the
empty-resolution rule. -/
def dnsEmptyOutcome : DnsResult :=
  { domain := "example.com", resolved_ips := [], lookup_time_ms := 50,
    ttl := none, nameservers := none, using_cdn := none }

/-- A resolution outcome with one address and a fast lookup (no resolution
issue fires). -/
def dnsSingleOutcome : DnsResult :=
  { domain := "example.com", resolved_ips := ["93.184.216.34"], lookup_time_ms := 50,
    ttl := none, nameservers := none, using_cdn := none }

/-- The resolution outcome of the end-to-end scenario: two addresses,
50ms lookup. -/
def dnsOkOutcome : DnsResult :=
  { domain := "example.com", resolved_ips := ["93.184.216.34", "93.184.216.35"],
    lookup_time_ms := 50, ttl := none, nameservers := none, using_cdn := none }

/-- A transport outcome with HTTP code 0 (no response at all). -/
def tcpNoResponseOutcome : TcpResult :=
  { dns_time_ms := 0, connect_time_ms := 0, ssl_time_ms := 0, ttfb_ms := 0,
    total_time_ms := 0, http_code := 0, download_speed_kbps := 0 }

/-- The transport outcome of the end-to-end scenario: code 200, total time
4000ms, every phase-exclusive duration under its threshold. -/
def tcpSlowTotalOutcome : TcpResult :=
  { dns_time_ms := 10, connect_time_ms := 50, ssl_time_ms := 100, ttfb_ms := 500,
    total_time_ms := 4000, http_code := 200, download_speed_kbps := 1000 }

/-- A transport outcome with code 200 and total time 2000ms (the silent
penalty band). -/
def tcpMidTotalOutcome : TcpResult :=
  { dns_time_ms := 10, connect_time_ms := 50, ssl_time_ms := 100, ttfb_ms := 500,
    total_time_ms := 2000, http_code := 200, download_speed_kbps := 1000 }

/-- A traceroute stdout line that the hop pattern accepts (hop 1, an IPv4
address, no round-trip suffix). -/
def hopLineOk : String := " 1  10.0.0.1  "

@[simp] theorem dnsResolutionFailedIssue_category (d : DnsResult) :
    (dnsResolutionFailedIssue d).category = IssueCategory.Dns := rfl

@[simp] theorem dnsResolutionFailedIssue_severity (d : DnsResult) :
    (dnsResolutionFailedIssue d).severity = IssueSeverity.Error := rfl

@[simp] theorem dnsSlowIssue_category (d : DnsResult) :
    (dnsSlowIssue d).category = IssueCategory.Dns := rfl

@[simp] theorem dnsSlowIssue_severity (d : DnsResult) :
    (dnsSlowIssue d).severity = IssueSeverity.Warning := rfl

@[simp] theorem tcpConnectFailedIssue_category :
    tcpConnectFailedIssue.category = IssueCategory.Tcp := rfl

@[simp] theorem tcpConnectFailedIssue_severity :
    tcpConnectFailedIssue.severity = IssueSeverity.Error := rfl

@[simp] theorem tcpConnectSlowIssue_category (q : ℚ) :
    (tcpConnectSlowIssue q).category = IssueCategory.Tcp := rfl

@[simp] theorem tcpConnectSlowIssue_severity (q : ℚ) :
    (tcpConnectSlowIssue q).severity = IssueSeverity.Warning := rfl

@[simp] theorem sslSlowIssue_category (q : ℚ) :
    (sslSlowIssue q).category = IssueCategory.Ssl := rfl

@[simp] theorem sslSlowIssue_severity (q : ℚ) :
    (sslSlowIssue q).severity = IssueSeverity.Warning := rfl

@[simp] theorem totalTimeSlowIssue_category (q : ℚ) :
    (totalTimeSlowIssue q).category = IssueCategory.Http := rfl

@[simp] theorem totalTimeSlowIssue_severity (q : ℚ) :
    (totalTimeSlowIssue q).severity = IssueSeverity.Warning := rfl

@[simp] theorem httpClientErrorIssue_category (n : Nat) :
    (httpClientErrorIssue n).category = IssueCategory.Http := rfl

@[simp] theorem httpClientErrorIssue_severity (n : Nat) :
    (httpClientErrorIssue n).severity = IssueSeverity.Warning := rfl

@[simp] theorem httpServerErrorIssue_category (n : Nat) :
    (httpServerErrorIssue n).category = IssueCategory.Http := rfl

@[simp] theorem httpServerErrorIssue_severity (n : Nat) :
    (httpServerErrorIssue n).severity = IssueSeverity.Error := rfl

@[simp] theorem failedHopsIssue_category (q : ℚ) :
    (failedHopsIssue q).category = IssueCategory.Routing := rfl

@[simp] theorem failedHopsIssue_severity (q : ℚ) :
    (failedHopsIssue q).severity = IssueSeverity.Warning := rfl

@[simp] theorem manyHopsIssue_category (n : Nat) :
    (manyHopsIssue n).category = IssueCategory.Routing := rfl

@[simp] theorem manyHopsIssue_severity (n : Nat) :
    (manyHopsIssue n).severity = IssueSeverity.Info := rfl

@[simp] theorem unstableIssue_category (q : ℚ) :
    (unstableIssue q).category = IssueCategory.Stability := rfl

@[simp] theorem unstableIssue_severity (q : ℚ) :
    (unstableIssue q).severity = IssueSeverity.Error := rfl

@[simp] theorem packetLossIssue_category (q : ℚ) :
    (packetLossIssue q).category = IssueCategory.Stability := rfl

@[simp] theorem packetLossIssue_severity (q : ℚ) :
    (packetLossIssue q).severity = IssueSeverity.Warning := rfl

@[simp] theorem highJitterIssue_category (q : ℚ) :
    (highJitterIssue q).category = IssueCategory.Stability := rfl

@[simp] theorem highJitterIssue_severity (q : ℚ) :
    (highJitterIssue q).severity = IssueSeverity.Warning := rfl

theorem analyzeDns_resolution_failed (d : DnsResult) (h : d.resolved_ips = []) :
    (analyzeDns d).1 = [dnsResolutionFailedIssue d] ∧ (analyzeDns d).2.1 = -50 := by
  simp [analyzeDns, h]

theorem analyzeDns_no_issues_delta (d : DnsResult) (h : (analyzeDns d).1 = []) :
    (analyzeDns d).2.1 = 0 := by
  unfold analyzeDns at h ⊢
  split_ifs at h ⊢
  all_goals simp_all

theorem connectCheck_filter_dns (t : TcpResult) :
    (connectCheck t).1.filter (fun i => i.category = IssueCategory.Dns) = [] := by
  simp only [connectCheck]
  split_ifs <;> simp

theorem sslCheck_filter_dns (t : TcpResult) :
    (sslCheck t).1.filter (fun i => i.category = IssueCategory.Dns) = [] := by
  simp only [sslCheck]
  split_ifs <;> simp

theorem totalTimeCheck_filter_dns (t : TcpResult) :
    (totalTimeCheck t).1.filter (fun i => i.category = IssueCategory.Dns) = [] := by
  unfold totalTimeCheck
  split_ifs <;> simp

theorem httpCodeCheck_filter_dns (t : TcpResult) :
    (httpCodeCheck t).1.filter (fun i => i.category = IssueCategory.Dns) = [] := by
  unfold httpCodeCheck
  split_ifs <;> simp

theorem tcpIssuesOf_filter_dns (o : Option TcpResult) :
    (tcpIssuesOf o).filter (fun i => i.category = IssueCategory.Dns) = [] := by
  cases o with
  | none => rfl
  | some t =>
    by_cases h : t.http_code = 0
    · simp [tcpIssuesOf, analyzeTcp, h]
    · simp [tcpIssuesOf, analyzeTcp, h, List.filter_append, connectCheck_filter_dns,
        sslCheck_filter_dns, totalTimeCheck_filter_dns, httpCodeCheck_filter_dns]

theorem routingIssuesOf_filter_dns (o : Option RoutingResult) :
    (routingIssuesOf o).filter (fun i => i.category = IssueCategory.Dns) = [] := by
  cases o with
  | none => rfl
  | some r =>
    simp only [routingIssuesOf]
    unfold analyzeRouting
    split_ifs <;> simp

theorem stabilityIssuesOf_filter_dns (o : Option StabilityResult) :
    (stabilityIssuesOf o).filter (fun i => i.category = IssueCategory.Dns) = [] := by
  cases o with
  | none => rfl
  | some s =>
    simp only [stabilityIssuesOf]
    unfold analyzeStability
    split_ifs <;> simp

theorem connectCheck_no_issue_delta (t : TcpResult) (h : (connectCheck t).1 = []) :
    (connectCheck t).2 = 0 := by
  simp only [connectCheck] at h ⊢
  split_ifs at h ⊢
  all_goals simp_all

theorem sslCheck_no_issue_delta (t : TcpResult) (h : (sslCheck t).1 = []) :
    (sslCheck t).2 = 0 := by
  simp only [sslCheck] at h ⊢
  split_ifs at h ⊢
  all_goals simp_all

theorem totalTimeCheck_no_issue_delta (t : TcpResult) (h : (totalTimeCheck t).1 = []) :
    (totalTimeCheck t).2 = 0 ∨ (totalTimeCheck t).2 = -5 := by
  simp only [totalTimeCheck] at h ⊢
  split_ifs at h ⊢
  all_goals simp_all

theorem httpCodeCheck_no_issue_delta (t : TcpResult) (h : (httpCodeCheck t).1 = []) :
    (httpCodeCheck t).2 = 0 := by
  simp only [httpCodeCheck] at h ⊢
  split_ifs at h ⊢
  all_goals simp_all

theorem analyzeTcp_no_issues_delta (t : TcpResult) (h : (analyzeTcp t).1 = []) :
    -5 ≤ (analyzeTcp t).2 ∧ (analyzeTcp t).2 ≤ 0 := by
  by_cases h0 : t.http_code = 0
  · simp [analyzeTcp, h0] at h
  · have ha : (analyzeTcp t).1 =
        (connectCheck t).1 ++ (sslCheck t).1 ++ (totalTimeCheck t).1 ++ (httpCodeCheck t).1 := by
      simp [analyzeTcp, h0]
    have hb : (analyzeTcp t).2 =
        (connectCheck t).2 + (sslCheck t).2 + (totalTimeCheck t).2 + (httpCodeCheck t).2 := by
      simp [analyzeTcp, h0]
    rw [ha] at h
    simp only [List.append_eq_nil] at h
    obtain ⟨⟨⟨h1, h2⟩, h3⟩, h4⟩ := h
    rw [hb]
    have e1 := connectCheck_no_issue_delta t h1
    have e2 := sslCheck_no_issue_delta t h2
    have e3 := totalTimeCheck_no_issue_delta t h3
    have e4 := httpCodeCheck_no_issue_delta t h4
    omega

theorem analyzeRouting_no_issues_delta (r : RoutingResult)
    (h : (analyzeRouting r).1 = []) : (analyzeRouting r).2 = 0 := by
  simp only [analyzeRouting] at h ⊢
  split_ifs at h ⊢
  all_goals simp_all

theorem analyzeStability_no_issues_delta (s : StabilityResult)
    (h : (analyzeStability s).1 = []) : (analyzeStability s).2 = 0 := by
  simp only [analyzeStability] at h ⊢
  split_ifs at h ⊢
  all_goals simp_all

theorem dnsDeltaOf_no_issues (o : Option DnsResult) (h : dnsIssuesOf o = []) :
    dnsDeltaOf o = 0 := by
  cases o with
  | none => rfl
  | some d => exact analyzeDns_no_issues_delta d h

theorem tcpDeltaOf_no_issues (o : Option TcpResult) (h : tcpIssuesOf o = []) :
    -5 ≤ tcpDeltaOf o ∧ tcpDeltaOf o ≤ 0 := by
  cases o with
  | none => exact ⟨by decide, by decide⟩
  | some t => exact analyzeTcp_no_issues_delta t h

theorem routingDeltaOf_no_issues (o : Option RoutingResult) (h : routingIssuesOf o = []) :
    routingDeltaOf o = 0 := by
  cases o with
  | none => rfl
  | some r => exact analyzeRouting_no_issues_delta r h

theorem stabilityDeltaOf_no_issues (o : Option StabilityResult) (h : stabilityIssuesOf o = []) :
    stabilityDeltaOf o = 0 := by
  cases o with
  | none => rfl
  | some s => exact analyzeStability_no_issues_delta s h

/-- C1 counterexample: on the fully empty snapshot (all four outcomes
absent) analyze_results does not behave as claimed: the status is not
Failed, the issues list is empty, and the escalation recommendation is
absent. -/
theorem empty_snapshot_claim_false :
    ¬ ((analyze_results none none none none).2.2 = OverallStatus.Failed ∧
       (analyze_results none none none none).1 ≠ [] ∧
       escalationRecommendation ∈ (analyze_results none none none none).2.1) := by
  decide

/-- C1 (amended): on the fully empty snapshot analyze_results returns no
issue, the single positive recommendation, and status Excellent — absent
outcomes are skipped by every rule, so the score stays 100. -/
theorem empty_snapshot_excellent :
    analyze_results none none none none =
      ([], [noIssuesRecommendation], OverallStatus.Excellent) := by
  decide

/-- C3: the score-to-status mapping is total and non-overlapping — scores
of 90 and above map to Excellent, 75 to 89 to Good, 50 to 74 to
Acceptable, 25 to 49 to Poor, and everything below 25 (including negative
scores) to Failed. -/
theorem statusOf_mapping (s : Int) :
    (90 ≤ s → statusOf s = OverallStatus.Excellent) ∧
    (75 ≤ s → s < 90 → statusOf s = OverallStatus.Good) ∧
    (50 ≤ s → s < 75 → statusOf s = OverallStatus.Acceptable) ∧
    (25 ≤ s → s < 50 → statusOf s = OverallStatus.Poor) ∧
    (s < 25 → statusOf s = OverallStatus.Failed) := by
  unfold statusOf
  refine ⟨?_, ?_, ?_, ?_, ?_⟩ <;> intros <;> split_ifs <;> first | rfl | (exfalso; omega)

/-- C3 witness: the five sample scores 95, 80, 60, 30, 10 map to the five
statuses in order. -/
theorem statusOf_mapping_witness :
    statusOf 95 = OverallStatus.Excellent ∧ statusOf 80 = OverallStatus.Good ∧
    statusOf 60 = OverallStatus.Acceptable ∧ statusOf 30 = OverallStatus.Poor ∧
    statusOf 10 = OverallStatus.Failed :=
  ⟨(statusOf_mapping 95).1 (by decide),
   (statusOf_mapping 80).2.1 (by decide) (by decide),
   (statusOf_mapping 60).2.2.1 (by decide) (by decide),
   (statusOf_mapping 30).2.2.2.1 (by decide) (by decide),
   (statusOf_mapping 10).2.2.2.2 (by decide)⟩

/-- C4: a transport outcome with HTTP code 0 short-circuits the transport
analysis — it yields exactly the single no-response issue, of category Tcp
and severity Error, with a score delta of exactly -50; no other transport
sub-check contributes an issue or a score change. -/
theorem analyzeTcp_no_response (tcp : TcpResult) (h : tcp.http_code = 0) :
    analyzeTcp tcp = ([tcpConnectFailedIssue], -50) ∧
    tcpConnectFailedIssue.category = IssueCategory.Tcp ∧
    tcpConnectFailedIssue.severity = IssueSeverity.Error :=
  ⟨by simp [analyzeTcp, h], rfl, rfl⟩

/-- C4 witness: the short-circuit on a concrete zero-code outcome. -/
theorem analyzeTcp_no_response_witness :
    analyzeTcp tcpNoResponseOutcome = ([tcpConnectFailedIssue], -50) ∧
    tcpConnectFailedIssue.category = IssueCategory.Tcp ∧
    tcpConnectFailedIssue.severity = IssueSeverity.Error :=
  analyzeTcp_no_response tcpNoResponseOutcome rfl

/-- C5: for a responding transport outcome, a total time above 3000ms
yields the Warning issue together with -15, and appears among the
transport issues; a total time in the 1000-3000ms band yields -5 with no
issue at all (the silent penalty). -/
theorem totalTime_silent_penalty (tcp : TcpResult) (h0 : tcp.http_code ≠ 0) :
    (tcp.total_time_ms > 3000 →
      totalTimeCheck tcp = ([totalTimeSlowIssue tcp.total_time_ms], -15) ∧
      (totalTimeSlowIssue tcp.total_time_ms).severity = IssueSeverity.Warning ∧
      totalTimeSlowIssue tcp.total_time_ms ∈ (analyzeTcp tcp).1) ∧
    (¬ tcp.total_time_ms > 3000 → tcp.total_time_ms > 1000 →
      totalTimeCheck tcp = ([], -5)) := by
  constructor
  · intro h
    refine ⟨by simp [totalTimeCheck, h], rfl, ?_⟩
    have ha : (analyzeTcp tcp).1 =
        (connectCheck tcp).1 ++ (sslCheck tcp).1 ++ (totalTimeCheck tcp).1 ++ (httpCodeCheck tcp).1 := by
      simp [analyzeTcp, h0]
    rw [ha]
    simp [totalTimeCheck, h]
  · intro h1 h2
    simp [totalTimeCheck, h1, h2]

/-- C5 witness: both branches on concrete outcomes — total 4000ms gives
the Warning issue and -15, total 2000ms gives -5 with no issue. -/
theorem totalTime_silent_penalty_witness :
    totalTimeCheck tcpSlowTotalOutcome =
      ([totalTimeSlowIssue tcpSlowTotalOutcome.total_time_ms], -15) ∧
    totalTimeCheck tcpMidTotalOutcome = ([], -5) :=
  ⟨((totalTime_silent_penalty tcpSlowTotalOutcome (by decide)).1 (by decide)).1,
   (totalTime_silent_penalty tcpMidTotalOutcome (by decide)).2 (by decide) (by decide)⟩

/-- C2: whenever the resolution outcome is present with an empty address
list, the analysis produces exactly one Dns-category issue, that issue has
severity Error, and the final score is exactly 50 lower than for the same
snapshot whose resolution outcome produces no resolution issue. -/
theorem empty_resolution_rule (d d0 : DnsResult) (tcp : Option TcpResult)
    (routing : Option RoutingResult) (stability : Option StabilityResult)
    (h : d.resolved_ips = []) (h0 : (analyzeDns d0).1 = []) :
    (analyzeIssues (some d) tcp routing stability).filter
        (fun i => i.category = IssueCategory.Dns) = [dnsResolutionFailedIssue d] ∧
    (dnsResolutionFailedIssue d).severity = IssueSeverity.Error ∧
    analyzeScore (some d) tcp routing stability =
      analyzeScore (some d0) tcp routing stability - 50 := by
  obtain ⟨hi, hd⟩ := analyzeDns_resolution_failed d h
  refine ⟨?_, rfl, ?_⟩
  · have : dnsIssuesOf (some d) = [dnsResolutionFailedIssue d] := hi
    simp [analyzeIssues, this, List.filter_append, tcpIssuesOf_filter_dns,
      routingIssuesOf_filter_dns, stabilityIssuesOf_filter_dns]
  · have h0d := analyzeDns_no_issues_delta d0 h0
    have : dnsDeltaOf (some d) = -50 := hd
    have h2 : dnsDeltaOf (some d0) = 0 := h0d
    simp only [analyzeScore, this, h2]
    omega

/-- C2 witness: a concrete empty-address outcome against the concrete
single-address baseline, on an otherwise empty snapshot. -/
theorem empty_resolution_rule_witness :
    (analyzeIssues (some dnsEmptyOutcome) none none none).filter
        (fun i => i.category = IssueCategory.Dns) = [dnsResolutionFailedIssue dnsEmptyOutcome] ∧
    (dnsResolutionFailedIssue dnsEmptyOutcome).severity = IssueSeverity.Error ∧
    analyzeScore (some dnsEmptyOutcome) none none none =
      analyzeScore (some dnsSingleOutcome) none none none - 50 :=
  empty_resolution_rule dnsEmptyOutcome dnsSingleOutcome none none none rfl (by decide)

/-- C9: for every snapshot, if the analysis produces no issue then the
score is at least 95 (the silent five-point total-time penalty is the only
possible deduction without an issue) and the resulting status is
Excellent. -/
theorem no_issue_excellent (dns : Option DnsResult) (tcp : Option TcpResult)
    (routing : Option RoutingResult) (stability : Option StabilityResult)
    (h : analyzeIssues dns tcp routing stability = []) :
    95 ≤ analyzeScore dns tcp routing stability ∧
    (analyze_results dns tcp routing stability).2.2 = OverallStatus.Excellent := by
  rw [analyzeIssues] at h
  simp only [List.append_eq_nil] at h
  obtain ⟨⟨⟨h1, h2⟩, h3⟩, h4⟩ := h
  have b1 := dnsDeltaOf_no_issues dns h1
  have b2 := tcpDeltaOf_no_issues tcp h2
  have b3 := routingDeltaOf_no_issues routing h3
  have b4 := stabilityDeltaOf_no_issues stability h4
  have hs : 95 ≤ analyzeScore dns tcp routing stability := by
    simp only [analyzeScore]
    omega
  refine ⟨hs, ?_⟩
  have h90 : 90 ≤ analyzeScore dns tcp routing stability := by omega
  simp [analyze_results, statusOf, h90]

/-- C9 witness: the empty snapshot produces no issue, hence score at least
95 and status Excellent. -/
theorem no_issue_excellent_witness :
    95 ≤ analyzeScore none none none none ∧
    (analyze_results none none none none).2.2 = OverallStatus.Excellent :=
  no_issue_excellent none none none none rfl

theorem analyzeDns_ok : analyzeDns dnsOkOutcome = ([], 0, []) := by
  decide

theorem analyzeTcp_slowTotal : analyzeTcp tcpSlowTotalOutcome = ([totalTimeSlowIssue 4000], -15) := by
  norm_num [analyzeTcp, connectCheck, sslCheck, totalTimeCheck, httpCodeCheck, tcpSlowTotalOutcome]

theorem slowTotal_issues :
    analyzeIssues (some dnsOkOutcome) (some tcpSlowTotalOutcome) none none =
      [totalTimeSlowIssue 4000] := by
  simp [analyzeIssues, dnsIssuesOf, tcpIssuesOf, routingIssuesOf, stabilityIssuesOf,
    analyzeDns_ok, analyzeTcp_slowTotal]

theorem slowTotal_score :
    analyzeScore (some dnsOkOutcome) (some tcpSlowTotalOutcome) none none = 85 := by
  simp [analyzeScore, dnsDeltaOf, tcpDeltaOf, routingDeltaOf, stabilityDeltaOf,
    analyzeDns_ok, analyzeTcp_slowTotal]

theorem slowTotal_recs :
    analyzeRecommendations (some dnsOkOutcome) (some tcpSlowTotalOutcome) none none = [] := by
  simp only [analyzeRecommendations, slowTotal_issues, slowTotal_score]
  norm_num [dnsRecsOf, analyzeDns_ok]
  decide

/-- C6 counterexample: on the end-to-end scenario snapshot (resolution ok
with two addresses and 50ms, transport code 200 with total time 4000ms,
path and stability absent) the single issue produced has category Http —
the HTTP rendering of the source — not the transport category Tcp the
claim names. -/
theorem slow_total_snapshot_claim_false :
    ((analyze_results (some dnsOkOutcome) (some tcpSlowTotalOutcome) none none).1.map
        (fun i => i.category)) = [IssueCategory.Http] ∧
    IssueCategory.Http ≠ IssueCategory.Tcp := by
  refine ⟨?_, by decide⟩
  simp [analyze_results, slowTotal_issues]

/-- C6 (amended): the end-to-end scenario produces exactly one issue, the
total-time Warning of category Http (not Tcp), with score 85 and status
Good. -/
theorem slow_total_snapshot :
    analyze_results (some dnsOkOutcome) (some tcpSlowTotalOutcome) none none =
      ([totalTimeSlowIssue 4000], [], OverallStatus.Good) ∧
    (totalTimeSlowIssue 4000).category = IssueCategory.Http ∧
    (totalTimeSlowIssue 4000).severity = IssueSeverity.Warning ∧
    analyzeScore (some dnsOkOutcome) (some tcpSlowTotalOutcome) none none = 85 := by
  refine ⟨?_, rfl, rfl, slowTotal_score⟩
  have hst : statusOf 85 = OverallStatus.Good := by decide
  simp [analyze_results, slowTotal_issues, slowTotal_score, slowTotal_recs, hst]

/-- C7: whenever no stability sample succeeds (the successful-times list
is empty), the aggregated stability outcome has min, avg, max and jitter
all exactly 0 — the guarded branch of the source, with no division. -/
theorem check_stability_zero_success (num_tests : Nat)
    (samples : List (Option SampleOutcome)) (h : successfulTimes samples = []) :
    (check_stability num_tests samples).min_time_ms = 0 ∧
    (check_stability num_tests samples).avg_time_ms = 0 ∧
    (check_stability num_tests samples).max_time_ms = 0 ∧
    (check_stability num_tests samples).jitter_ms = 0 := by
  simp [check_stability, h]

/-- C7 witness: a run of two samples, one failed invocation and one 404
response, has zero successes and all four timing fields 0. -/
theorem check_stability_zero_success_witness :
    (check_stability 2 [none, some ⟨"404", 10⟩]).min_time_ms = 0 ∧
    (check_stability 2 [none, some ⟨"404", 10⟩]).avg_time_ms = 0 ∧
    (check_stability 2 [none, some ⟨"404", 10⟩]).max_time_ms = 0 ∧
    (check_stability 2 [none, some ⟨"404", 10⟩]).jitter_ms = 0 :=
  check_stability_zero_success 2 [none, some ⟨"404", 10⟩] (by decide)

/-- C8 counterexample: the first progress event emitted for the dns step
has status Running, not Pending as claimed. -/
theorem initial_pending_claim_false :
    (initialEvents.find? (fun e => e.step = "dns")).map ProgressEvent.status =
      some DiagnosticStatus.Running ∧
    DiagnosticStatus.Running ≠ DiagnosticStatus.Pending := by
  decide

/-- C8 (amended): before Phase 1 an initial event is emitted for each of
the six step names, in order dns, tcp, ssl, http, routing, stability; the
dns step is announced Running and the other five Pending. -/
theorem initial_events_statuses :
    initialEvents.map (fun e => (e.step, e.status)) =
      [("dns", DiagnosticStatus.Running), ("tcp", DiagnosticStatus.Pending),
       ("ssl", DiagnosticStatus.Pending), ("http", DiagnosticStatus.Pending),
       ("routing", DiagnosticStatus.Pending), ("stability", DiagnosticStatus.Pending)] := by
  decide

theorem length_filterMap_replicate {α β : Type} (f : α → Option β) (a : α) (b : β)
    (h : f a = some b) (n : Nat) :
    (List.filterMap f (List.replicate n a)).length = n := by
  induction n with
  | zero => simp
  | succ n ih => simp [List.replicate_succ, List.filterMap_cons, h, ih]

theorem parseHopLine_hopLineOk :
    parseHopLine hopLineOk =
      some { hop_number := 1, ip_address := "10.0.0.1", hostname := none,
             rtt_ms := 0, packet_loss_percent := 0 } := by
  decide

/-- C10 counterexample: on a traceroute output with 2 ^ 32 parseable hop
lines the u32 cast wraps — total_hops is 0 while the hop list has length
2 ^ 32, so the invariant fails for this output text. -/
theorem check_routing_hops_claim_false :
    ¬ ((check_routing ("10.0.0.1") 0
          (("traceroute to example.com") :: List.replicate (2 ^ 32) hopLineOk)).total_hops =
       (check_routing ("10.0.0.1") 0
          (("traceroute to example.com") :: List.replicate (2 ^ 32) hopLineOk)).hops.length) := by
  have hlen : (parseHops (("traceroute to example.com") :: List.replicate (2 ^ 32) hopLineOk)).length
      = 2 ^ 32 := by
    unfold parseHops
    simp only [List.drop_succ_cons, List.drop_zero]
    exact length_filterMap_replicate _ _ _ parseHopLine_hopLineOk (2 ^ 32)
  simp only [check_routing, hlen]
  norm_num

/-- C10 (amended): for every traceroute output whose parsed hop list has
fewer than 2 ^ 32 entries — every output a real traceroute can produce —
the returned RoutingResult has total_hops equal to the length of its hops
sequence. -/
theorem check_routing_total_hops (target_ip : String) (t : ℚ) (stdout_lines : List String)
    (h : (parseHops stdout_lines).length < 2 ^ 32) :
    (check_routing target_ip t stdout_lines).total_hops =
      (check_routing target_ip t stdout_lines).hops.length := by
  have h2 : (parseHops stdout_lines).length < 4294967296 := by
    norm_num at h
    exact h
  simp [check_routing, Nat.mod_eq_of_lt h2]

/-- C10 witness: a three-line output (header, one IPv4 hop, one star hop)
parses to two hops and total_hops 2. -/
theorem check_routing_total_hops_witness :
    (check_routing ("10.0.0.1") 0 [("traceroute to example.com"), hopLineOk, (" 2  *  ")]).total_hops =
      (check_routing ("10.0.0.1") 0 [("traceroute to example.com"), hopLineOk, (" 2  *  ")]).hops.length :=
  check_routing_total_hops ("10.0.0.1") 0 [("traceroute to example.com"), hopLineOk, (" 2  *  ")]
    (by decide)

end NetCheck
